import Mathlib

/-!
Shallow embedding of `SynchronousGrab/Qt/Source/ApiController.cpp`
(AVT VimbaCPP synchronous-grab example).

The controller makes a linear sequence of calls into the vendor SDK
(VimbaSystem / Camera / Feature).  We model the SDK as an oracle: a record
(`AcquireEnv`, `StartUpEnv`, ...) giving the status code and out-parameter
value each SDK call would return in one invocation of the controller method.
The controller methods then become pure functions from the oracle and the
controller's cached state to a result status, the new cached state, and the
list of SDK calls actually performed (so that claims about which calls are or
are not made can be stated).

Vimba status codes are C `VmbErrorType` values: `VmbErrorSuccess = 0`, all
failure codes are other integers.  We model statuses as `Int` with 0 as
success.  The do/while polling loop over `IsCommandDone` has no iteration
bound in the source, so its embedding takes fuel and the methods containing
it return `Option` (`none` = the call did not terminate within the fuel).
-/

namespace ApiControllerModel

/-- Vimba status code (`VmbErrorType`); 0 is `VmbErrorSuccess`. -/
abbrev VmbStatus := Int

/-- `VmbErrorSuccess` from VmbCommonTypes.h. -/
def VmbErrorSuccess : VmbStatus := 0

/-- `VmbErrorNotFound` from VmbCommonTypes.h (device not found). -/
def VmbErrorNotFound : VmbStatus := -9

/-- `VmbErrorTimeout` from VmbCommonTypes.h. -/
def VmbErrorTimeout : VmbStatus := -12

/-- `VmbErrorOther` from VmbCommonTypes.h. -/
def VmbErrorOther : VmbStatus := -19

/-- `VmbPixelFormatRgb8` (PFNC RGB8, 24-bit colour) from VmbCommonTypes.h. -/
def VmbPixelFormatRgb8 : Int := 0x02180014

/-- `VmbPixelFormatMono8` (PFNC Mono8, 8-bit greyscale) from VmbCommonTypes.h. -/
def VmbPixelFormatMono8 : Int := 0x01080001

/-- C++ `static_cast<int>` / `static_cast<VmbPixelFormatType>` applied to a
`VmbInt64_t`: conversion to a 32-bit value (two's-complement wrap, as on every
platform the example targets). -/
def intCast32 (x : Int) : Int := (x + 2 ^ 31) % 2 ^ 32 - 2 ^ 31

/-- The mutable scalar state an `ApiController` instance caches across calls:
`m_nWidth`, `m_nHeight`, `m_nPixelFormat` (all `VmbInt64_t` members). -/
structure ApiController where
  m_nWidth : Int
  m_nHeight : Int
  m_nPixelFormat : Int
deriving DecidableEq, Repr

/-- One SDK call, as recorded in the call trace of a controller method. -/
inductive SdkCall where
  /-- `m_system.OpenCameraByID(...)` -/
  | openCamera : SdkCall
  /-- `m_pCamera->GetFeatureByName(name, ...)` -/
  | getFeature : String → SdkCall
  /-- `pCommandFeature->RunCommand()` -/
  | runCommand : SdkCall
  /-- one `pCommandFeature->IsCommandDone(...)` poll -/
  | isCommandDone : SdkCall
  /-- `pFormatFeature->GetValue(...)` for the named feature -/
  | getValue : String → SdkCall
  /-- `pFormatFeature->SetValue(v)` for the named feature -/
  | setValue : String → Int → SdkCall
  /-- `m_pCamera->AcquireSingleImage(rpFrame, 2000)` -/
  | capture : SdkCall
  /-- `m_pCamera->Close()` -/
  | close : SdkCall
deriving DecidableEq, Repr

/-- Oracle for one `ApiController::AcquireSingleImage` invocation: the status
code (and out-parameter value, where there is one) each SDK call would return.
`isCommandDone k` gives the result of the k-th `IsCommandDone` poll
(status, value written into `bIsCommandDone`). -/
structure AcquireEnv where
  openRes : VmbStatus
  getPacketFeatureRes : VmbStatus
  runCommandRes : VmbStatus
  isCommandDone : Nat → VmbStatus × Bool
  getWidthFeatureRes : VmbStatus
  getWidthValueRes : VmbStatus
  widthValue : Int
  getHeightFeatureRes : VmbStatus
  getHeightValueRes : VmbStatus
  heightValue : Int
  getPixelFormatFeatureRes : VmbStatus
  setRgb8Res : VmbStatus
  setMono8Res : VmbStatus
  readbackRes : VmbStatus
  readbackValue : Int
  captureRes : VmbStatus

/-- Result of a terminating `AcquireSingleImage` call: the returned status,
the controller's cached state on return, and the SDK calls performed. -/
structure AcquireResult where
  res : VmbStatus
  ctrl : ApiController
  calls : List SdkCall
deriving DecidableEq, Repr

/-- The do/while polling loop (ApiController.cpp lines 128-135):

    bool bIsCommandDone = false;
    do {
      if (VmbErrorSuccess != pCommandFeature->IsCommandDone(bIsCommandDone)) break;
    } while (false == bIsCommandDone);

`k` is the index of the next `IsCommandDone` poll; the result is the total
number of polls made (starting from poll 0), or `none` if the loop has not
exited within `fuel` iterations. -/
def pollLoop (env : AcquireEnv) : Nat → Nat → Option Nat
  | 0, _ => none
  | fuel + 1, k =>
    if (env.isCommandDone k).1 ≠ VmbErrorSuccess then some (k + 1)
    else if (env.isCommandDone k).2 then some (k + 1)
    else pollLoop env fuel (k + 1)

/-- The GVSPAdjustPacketSize block (ApiController.cpp lines 123-137): get the
command feature, run it, poll for completion.  All statuses are tested only
locally; none is assigned to `res`.  Returns the SDK calls made, or `none`
when the polling loop does not exit within `fuel`. -/
def packetSizeCalls (env : AcquireEnv) (fuel : Nat) : Option (List SdkCall) :=
  if env.getPacketFeatureRes = VmbErrorSuccess then
    if env.runCommandRes = VmbErrorSuccess then
      match pollLoop env fuel 0 with
      | none => none
      | some n =>
        some ([SdkCall.getFeature "GVSPAdjustPacketSize", SdkCall.runCommand]
               ++ List.replicate n SdkCall.isCommandDone)
    else some [SdkCall.getFeature "GVSPAdjustPacketSize", SdkCall.runCommand]
  else some [SdkCall.getFeature "GVSPAdjustPacketSize"]

/-- ApiController.cpp lines 138-177: the checked sequence after the packet
size block, from `GetFeatureByName("Width")` up to (and including) the
capture.  Mirrors the C++ nesting exactly; in particular
`pFormatFeature->GetValue(this->m_nHeight)` on line 150 has its status
DISCARDED (not assigned to `res`, unlike the Width read on line 143), and the
pixel-format read-back on line 166 likewise has its status discarded.  A
failing `GetValue` leaves the corresponding out-parameter member untouched. -/
def acquireInner (env : AcquireEnv) (st : ApiController) : AcquireResult :=
  -- res = m_pCamera->GetFeatureByName( "Width", pFormatFeature );
  let res := env.getWidthFeatureRes
  if res = VmbErrorSuccess then
    -- res = pFormatFeature->GetValue( m_nWidth );
    let res := env.getWidthValueRes
    let st := if env.getWidthValueRes = VmbErrorSuccess then
                { st with m_nWidth := env.widthValue } else st
    if res = VmbErrorSuccess then
      -- res = m_pCamera->GetFeatureByName( "Height", pFormatFeature );
      let res := env.getHeightFeatureRes
      if res = VmbErrorSuccess then
        -- pFormatFeature->GetValue( this->m_nHeight );   (status discarded)
        let st := if env.getHeightValueRes = VmbErrorSuccess then
                    { st with m_nHeight := env.heightValue } else st
        -- if ( VmbErrorSuccess == res )   (res is still the line-147 status)
        if res = VmbErrorSuccess then
          -- res = m_pCamera->GetFeatureByName( "PixelFormat", pFormatFeature );
          let res := env.getPixelFormatFeatureRes
          if res = VmbErrorSuccess then
            -- res = pFormatFeature->SetValue( VmbPixelFormatRgb8 );
            -- if ( VmbErrorSuccess != res )
            --   res = pFormatFeature->SetValue( VmbPixelFormatMono8 );
            let res2 := if env.setRgb8Res ≠ VmbErrorSuccess then env.setMono8Res
                        else env.setRgb8Res
            let setCalls := if env.setRgb8Res ≠ VmbErrorSuccess then
                [SdkCall.setValue "PixelFormat" VmbPixelFormatRgb8,
                 SdkCall.setValue "PixelFormat" VmbPixelFormatMono8]
              else [SdkCall.setValue "PixelFormat" VmbPixelFormatRgb8]
            -- pFormatFeature->GetValue( m_nPixelFormat );   (status discarded)
            let st := if env.readbackRes = VmbErrorSuccess then
                        { st with m_nPixelFormat := env.readbackValue } else st
            if res2 = VmbErrorSuccess then
              -- res = m_pCamera->AcquireSingleImage( rpFrame, 2000 );
              ⟨env.captureRes, st,
                [SdkCall.getFeature "Width", SdkCall.getValue "Width",
                 SdkCall.getFeature "Height", SdkCall.getValue "Height",
                 SdkCall.getFeature "PixelFormat"] ++ setCalls
                  ++ [SdkCall.getValue "PixelFormat", SdkCall.capture]⟩
            else
              ⟨res2, st,
                [SdkCall.getFeature "Width", SdkCall.getValue "Width",
                 SdkCall.getFeature "Height", SdkCall.getValue "Height",
                 SdkCall.getFeature "PixelFormat"] ++ setCalls
                  ++ [SdkCall.getValue "PixelFormat"]⟩
          else
            ⟨res, st,
              [SdkCall.getFeature "Width", SdkCall.getValue "Width",
               SdkCall.getFeature "Height", SdkCall.getValue "Height",
               SdkCall.getFeature "PixelFormat"]⟩
        else
          ⟨res, st,
            [SdkCall.getFeature "Width", SdkCall.getValue "Width",
             SdkCall.getFeature "Height", SdkCall.getValue "Height"]⟩
      else
        ⟨res, st,
          [SdkCall.getFeature "Width", SdkCall.getValue "Width",
           SdkCall.getFeature "Height"]⟩
    else
      ⟨res, st, [SdkCall.getFeature "Width", SdkCall.getValue "Width"]⟩
  else
    ⟨res, st, [SdkCall.getFeature "Width"]⟩

/-- `ApiController::AcquireSingleImage` (ApiController.cpp lines 115-182):
open the camera by ID; if that succeeds, run the packet-size block, then the
checked Width/Height/PixelFormat/capture sequence, then `m_pCamera->Close()`
unconditionally; return the final `res`.  `none` means the call did not
return (polling loop exceeded `fuel`). -/
def acquireSingleImage (env : AcquireEnv) (st : ApiController) (fuel : Nat) :
    Option AcquireResult :=
  -- VmbErrorType res = m_system.OpenCameraByID( ..., m_pCamera );
  if env.openRes = VmbErrorSuccess then
    match packetSizeCalls env fuel with
    | none => none
    | some pcalls =>
      let r := acquireInner env st
      some ⟨r.res, r.ctrl,
        (SdkCall.openCamera :: pcalls) ++ r.calls ++ [SdkCall.close]⟩
  else
    some ⟨env.openRes, st, [SdkCall.openCamera]⟩

/-- `ApiController::GetCameraList` (ApiController.cpp lines 191-201): if
`m_system.GetCameras(cameras)` succeeds, return the enumerated vector;
otherwise return a fresh empty vector.  Cameras are modelled by their ID
strings. -/
def GetCameraList (enumRes : VmbStatus) (cameras : List String) : List String :=
  if enumRes = VmbErrorSuccess then cameras else []

/-- `ApiController::GetWidth` (line 211): `static_cast<int>( m_nWidth )`. -/
def GetWidth (c : ApiController) : Int := intCast32 c.m_nWidth

/-- `ApiController::GetHeight` (line 222): `static_cast<int>( m_nHeight )`. -/
def GetHeight (c : ApiController) : Int := intCast32 c.m_nHeight

/-- `ApiController::GetPixelFormat` (line 233):
`static_cast<VmbPixelFormatType>( m_nPixelFormat )`. -/
def GetPixelFormat (c : ApiController) : Int := intCast32 c.m_nPixelFormat

/-- Modelled from the spec: ApiController.h (the member declarations and any
default member initializers of `m_nWidth`, `m_nHeight`, `m_nPixelFormat`) is
not in src/.  The constructor in ApiController.cpp (lines 45-49) initializes
only `m_system`, and the spec states the cached frame attributes are
"undefined/stale if no successful acquisition has occurred" - i.e. the members
are left uninitialized.  The indeterminate initial contents are therefore an
arbitrary parameter `g` of the construction. -/
def apiControllerCtor (g : ApiController) : ApiController := g

/-- One SDK/observer call made by `ApiController::StartUp`. -/
inductive StartUpCall where
  /-- `m_system.Startup()` -/
  | startup : StartUpCall
  /-- `new CameraObserver()` -/
  | newCameraObserver : StartUpCall
  /-- `m_system.RegisterCameraListObserver(...)` -/
  | registerObserver : StartUpCall
deriving DecidableEq, Repr

/-- Oracle for one `ApiController::StartUp` invocation. -/
structure StartUpEnv where
  startupRes : VmbStatus
  registerRes : VmbStatus

/-- `ApiController::StartUp` (ApiController.cpp lines 75-90): run
`m_system.Startup()`; on success construct a `CameraObserver` and register it,
overwriting `res` with the registration status; return `res`.  Result is the
returned status together with the calls performed. -/
def startUp (env : StartUpEnv) : VmbStatus × List StartUpCall :=
  let res := env.startupRes
  if res = VmbErrorSuccess then
    (env.registerRes,
     [StartUpCall.startup, StartUpCall.newCameraObserver,
      StartUpCall.registerObserver])
  else
    (res, [StartUpCall.startup])

/-! ### Concrete instances used as test inputs and counterexamples -/

/-- A controller whose cached members happen to hold zero. -/
def ctrl0 : ApiController := ⟨0, 0, 0⟩

/-- An oracle in which every SDK call succeeds: the device reports width 640
and height 480, accepts RGB8, reads back RGB8, and the first
`IsCommandDone` poll reports the command done. -/
def allOkEnv : AcquireEnv where
  openRes := VmbErrorSuccess
  getPacketFeatureRes := VmbErrorSuccess
  runCommandRes := VmbErrorSuccess
  isCommandDone := fun _ => (VmbErrorSuccess, true)
  getWidthFeatureRes := VmbErrorSuccess
  getWidthValueRes := VmbErrorSuccess
  widthValue := 640
  getHeightFeatureRes := VmbErrorSuccess
  getHeightValueRes := VmbErrorSuccess
  heightValue := 480
  getPixelFormatFeatureRes := VmbErrorSuccess
  setRgb8Res := VmbErrorSuccess
  setMono8Res := VmbErrorSuccess
  readbackRes := VmbErrorSuccess
  readbackValue := VmbPixelFormatRgb8
  captureRes := VmbErrorSuccess

/-- Like `allOkEnv`, but `pFormatFeature->GetValue(this->m_nHeight)` (line
150) fails with `VmbErrorOther`; every other SDK call succeeds. -/
def heightReadFailEnv : AcquireEnv :=
  { allOkEnv with getHeightValueRes := VmbErrorOther }

/-- Like `allOkEnv`, but `IsCommandDone` always succeeds and always reports
the command as not yet done: the polling loop never exits. -/
def hangEnv : AcquireEnv :=
  { allOkEnv with isCommandDone := fun _ => (VmbErrorSuccess, false) }

/-- Like `allOkEnv`, but the device rejects `SetValue(VmbPixelFormatRgb8)`
with `VmbErrorOther`, accepts `SetValue(VmbPixelFormatMono8)`, and reads back
Mono8. -/
def monoFallbackEnv : AcquireEnv :=
  { allOkEnv with
      setRgb8Res := VmbErrorOther
      readbackValue := VmbPixelFormatMono8 }

/-- Like `allOkEnv`, but `OpenCameraByID` fails with `VmbErrorNotFound`. -/
def openFailEnv : AcquireEnv :=
  { allOkEnv with openRes := VmbErrorNotFound }

/-- Like `allOkEnv`, but `GetFeatureByName("GVSPAdjustPacketSize")` and
`RunCommand` would both fail with `VmbErrorOther`. -/
def packetFailEnv : AcquireEnv :=
  { allOkEnv with
      getPacketFeatureRes := VmbErrorOther
      runCommandRes := VmbErrorOther }

/-! ### Supporting lemmas -/

/-- `m_pCamera->Close()` is never one of the calls of the inner checked
sequence (lines 138-177). -/
theorem acquireInner_close_not_mem (env : AcquireEnv) (st : ApiController) :
    SdkCall.close ∉ (acquireInner env st).calls := by
  simp only [acquireInner]
  repeat' split
  all_goals simp

/-- The inner checked sequence always begins with
`GetFeatureByName("Width")`. -/
theorem acquireInner_width_mem (env : AcquireEnv) (st : ApiController) :
    SdkCall.getFeature "Width" ∈ (acquireInner env st).calls := by
  simp only [acquireInner]
  repeat' split
  all_goals simp

/-- The packet-size block (lines 123-137) never calls `Close`. -/
theorem packetSizeCalls_close_not_mem (env : AcquireEnv) (fuel : Nat)
    (pcalls : List SdkCall) (h : packetSizeCalls env fuel = some pcalls) :
    SdkCall.close ∉ pcalls := by
  rw [packetSizeCalls] at h
  split at h
  · split at h
    · rcases hp : pollLoop env fuel 0 with _ | n <;> rw [hp] at h
      · cases h
      · injection h with h
        subst h
        simp [List.mem_replicate]
    · injection h with h
      subst h
      simp
  · injection h with h
    subst h
    simp

/-- If the polling loop exits after `n` polls, the last poll (index `n - 1`)
either returned a non-success status or reported the command done. -/
theorem pollLoop_exit (env : AcquireEnv) (fuel k n : Nat)
    (h : pollLoop env fuel k = some n) :
    (env.isCommandDone (n - 1)).1 ≠ VmbErrorSuccess ∨
      (env.isCommandDone (n - 1)).2 = true := by
  induction fuel generalizing k with
  | zero => simp [pollLoop] at h
  | succ m ih =>
    rw [pollLoop] at h
    split at h
    · cases h
      simpa using Or.inl (by assumption)
    · split at h
      · cases h
        simpa using Or.inr (by assumption)
      · exact ih (k + 1) h

/-- With `IsCommandDone` always succeeding and always reporting not-done, the
polling loop exits under no fuel bound. -/
theorem pollLoop_hangEnv_none (fuel k : Nat) :
    pollLoop hangEnv fuel k = none := by
  induction fuel generalizing k with
  | zero => rfl
  | succ m ih =>
    rw [pollLoop]
    simpa [hangEnv] using ih (k + 1)

/-- The inner checked sequence reads none of the packet-size oracle fields:
two oracles agreeing on every field after the packet-size block produce the
same inner result. -/
theorem acquireInner_congr (env₁ env₂ : AcquireEnv) (st : ApiController)
    (h₁ : env₁.getWidthFeatureRes = env₂.getWidthFeatureRes)
    (h₂ : env₁.getWidthValueRes = env₂.getWidthValueRes)
    (h₃ : env₁.widthValue = env₂.widthValue)
    (h₄ : env₁.getHeightFeatureRes = env₂.getHeightFeatureRes)
    (h₅ : env₁.getHeightValueRes = env₂.getHeightValueRes)
    (h₆ : env₁.heightValue = env₂.heightValue)
    (h₇ : env₁.getPixelFormatFeatureRes = env₂.getPixelFormatFeatureRes)
    (h₈ : env₁.setRgb8Res = env₂.setRgb8Res)
    (h₉ : env₁.setMono8Res = env₂.setMono8Res)
    (h₁₀ : env₁.readbackRes = env₂.readbackRes)
    (h₁₁ : env₁.readbackValue = env₂.readbackValue)
    (h₁₂ : env₁.captureRes = env₂.captureRes) :
    acquireInner env₁ st = acquireInner env₂ st := by
  simp only [acquireInner, h₁, h₂, h₃, h₄, h₅, h₆, h₇, h₈, h₉, h₁₀, h₁₁, h₁₂]

/-- Shape of a terminating `AcquireSingleImage` run whose open succeeded:
status and cached state come from the inner checked sequence, and the trace
is open, the packet-size calls, the inner calls, then one `Close`. -/
theorem acquire_open_ok_shape (env : AcquireEnv) (st : ApiController)
    (fuel : Nat) (r : AcquireResult)
    (hopen : env.openRes = VmbErrorSuccess)
    (h : acquireSingleImage env st fuel = some r) :
    ∃ pcalls, packetSizeCalls env fuel = some pcalls ∧
      r = ⟨(acquireInner env st).res, (acquireInner env st).ctrl,
        (SdkCall.openCamera :: pcalls) ++ (acquireInner env st).calls
          ++ [SdkCall.close]⟩ := by
  rw [acquireSingleImage, if_pos hopen] at h
  rcases hp : packetSizeCalls env fuel with _ | pcalls
  · rw [hp] at h; cases h
  · rw [hp] at h
    cases h
    exact ⟨pcalls, rfl, rfl⟩

/-! ### Claim theorems -/

/-- C1: the claim says that whenever a step of the checked sequence (open,
get/read Width, get/read Height, get/set PixelFormat, capture) fails, the
first failing status is returned and no later checked step runs.  The code
violates this: on line 150 the status of `GetValue(this->m_nHeight)` is not
assigned to `res` (unlike the Width read on line 143), so in
`heightReadFailEnv` - where that read fails with `VmbErrorOther` and every
other call succeeds - the pixel-format and capture steps still run and the
call returns `VmbErrorSuccess`, not the height-read failure.  The dead
re-check `if (VmbErrorSuccess == res)` on line 151 shows the assignment was
intended: the claim is right and the code has a slip. -/
theorem heightReadFailure_not_propagated :
    heightReadFailEnv.getHeightValueRes = VmbErrorOther ∧
    VmbErrorOther ≠ VmbErrorSuccess ∧
    acquireSingleImage heightReadFailEnv ctrl0 2 =
      some ⟨VmbErrorSuccess, ⟨640, 0, VmbPixelFormatRgb8⟩,
        [SdkCall.openCamera, SdkCall.getFeature "GVSPAdjustPacketSize",
         SdkCall.runCommand, SdkCall.isCommandDone,
         SdkCall.getFeature "Width", SdkCall.getValue "Width",
         SdkCall.getFeature "Height", SdkCall.getValue "Height",
         SdkCall.getFeature "PixelFormat",
         SdkCall.setValue "PixelFormat" VmbPixelFormatRgb8,
         SdkCall.getValue "PixelFormat", SdkCall.capture, SdkCall.close]⟩ := by
  decide

/-- C2: whenever `OpenCameraByID` succeeds and `AcquireSingleImage` returns,
`m_pCamera->Close()` appears exactly once in the calls performed, no matter
which later step failed. -/
theorem close_called_exactly_once (env : AcquireEnv) (st : ApiController)
    (fuel : Nat) (r : AcquireResult)
    (hopen : env.openRes = VmbErrorSuccess)
    (h : acquireSingleImage env st fuel = some r) :
    r.calls.count SdkCall.close = 1 := by
  obtain ⟨pcalls, hp, hr⟩ := acquire_open_ok_shape env st fuel r hopen h
  subst hr
  simp [List.count_append, List.count_cons,
    List.count_eq_zero.mpr (packetSizeCalls_close_not_mem env fuel pcalls hp),
    List.count_eq_zero.mpr (acquireInner_close_not_mem env st)]

/-- Witness for C2 at a concrete all-success oracle. -/
theorem close_called_exactly_once_witness :
    ((acquireSingleImage allOkEnv ctrl0 2).getD ⟨0, ctrl0, []⟩).calls.count
      SdkCall.close = 1 :=
  close_called_exactly_once allOkEnv ctrl0 2
    ((acquireSingleImage allOkEnv ctrl0 2).getD ⟨0, ctrl0, []⟩)
    (by decide) (by decide)

/-- C3: when `OpenCameraByID` fails, `AcquireSingleImage` returns exactly the
open failure status, makes no feature call (get/set/run-command/is-done), no
capture and no `Close`, and leaves the cached width/height/pixel format
unchanged. -/
theorem open_failure_no_further_calls (env : AcquireEnv) (st : ApiController)
    (fuel : Nat) (hopen : env.openRes ≠ VmbErrorSuccess) :
    acquireSingleImage env st fuel =
      some ⟨env.openRes, st, [SdkCall.openCamera]⟩ ∧
    ∀ r, acquireSingleImage env st fuel = some r →
      r.res = env.openRes ∧ r.ctrl = st ∧
      (∀ name, SdkCall.getFeature name ∉ r.calls) ∧
      (∀ name, SdkCall.getValue name ∉ r.calls) ∧
      (∀ name v, SdkCall.setValue name v ∉ r.calls) ∧
      SdkCall.runCommand ∉ r.calls ∧ SdkCall.isCommandDone ∉ r.calls ∧
      SdkCall.capture ∉ r.calls ∧ SdkCall.close ∉ r.calls := by
  rw [acquireSingleImage, if_neg hopen]
  refine ⟨rfl, ?_⟩
  rintro r hr
  injection hr with hr
  subst hr
  simp

/-- Witness for C3 at a concrete failed-open oracle. -/
theorem open_failure_no_further_calls_witness :
    acquireSingleImage openFailEnv ctrl0 1 =
      some ⟨openFailEnv.openRes, ctrl0, [SdkCall.openCamera]⟩ :=
  (open_failure_no_further_calls openFailEnv ctrl0 1 (by decide)).1

/-- C4: the claim says a success-returning call leaves the cached height
equal to the device's reported Height value.  In `heightReadFailEnv` the
Height read fails (status discarded by line 150) while the device would have
reported 480; starting from a controller whose stale cached height is 123,
the call still returns `VmbErrorSuccess` but the cached height remains 123,
not 480, so the claim fails on the code.  (Width and the pixel-format
read-back do land: 640 and Rgb8.) -/
theorem success_with_stale_height :
    heightReadFailEnv.heightValue = 480 ∧
    (acquireSingleImage heightReadFailEnv ⟨0, 123, 0⟩ 2).map
        (fun r => (r.res, r.ctrl.m_nWidth, r.ctrl.m_nHeight,
                   r.ctrl.m_nPixelFormat)) =
      some (VmbErrorSuccess, 640, 123, VmbPixelFormatRgb8) := by
  decide

/-- C5: when the PixelFormat feature is obtained, `SetValue(Rgb8)` is
rejected and `SetValue(Mono8)` succeeds, the Mono8 set is attempted, the
capture still runs and its status is the value returned. -/
theorem mono8_fallback (env : AcquireEnv) (st : ApiController) (fuel : Nat)
    (r : AcquireResult)
    (h : acquireSingleImage env st fuel = some r)
    (hopen : env.openRes = VmbErrorSuccess)
    (hwf : env.getWidthFeatureRes = VmbErrorSuccess)
    (hwv : env.getWidthValueRes = VmbErrorSuccess)
    (hhf : env.getHeightFeatureRes = VmbErrorSuccess)
    (hpf : env.getPixelFormatFeatureRes = VmbErrorSuccess)
    (hrgb : env.setRgb8Res ≠ VmbErrorSuccess)
    (hmono : env.setMono8Res = VmbErrorSuccess) :
    SdkCall.setValue "PixelFormat" VmbPixelFormatMono8 ∈ r.calls ∧
    SdkCall.capture ∈ r.calls ∧ r.res = env.captureRes := by
  obtain ⟨pcalls, hp, hr⟩ := acquire_open_ok_shape env st fuel r hopen h
  subst hr
  simp [acquireInner, hwf, hwv, hhf, hpf, hrgb, hmono]

/-- Witness for C5 at a concrete oracle rejecting Rgb8 and accepting
Mono8. -/
theorem mono8_fallback_witness :
    SdkCall.setValue "PixelFormat" VmbPixelFormatMono8 ∈
      ((acquireSingleImage monoFallbackEnv ctrl0 2).getD ⟨0, ctrl0, []⟩).calls ∧
    SdkCall.capture ∈
      ((acquireSingleImage monoFallbackEnv ctrl0 2).getD ⟨0, ctrl0, []⟩).calls ∧
    ((acquireSingleImage monoFallbackEnv ctrl0 2).getD ⟨0, ctrl0, []⟩).res =
      monoFallbackEnv.captureRes :=
  mono8_fallback monoFallbackEnv ctrl0 2
    ((acquireSingleImage monoFallbackEnv ctrl0 2).getD ⟨0, ctrl0, []⟩)
    (by decide) (by decide) (by decide) (by decide) (by decide) (by decide)
    (by decide) (by decide)

/-- C6: `GetCameraList` returns the enumerated list when `GetCameras`
succeeds and a fresh empty list on any non-success status, propagating no
error; hence an enumeration failure is indistinguishable from a successful
enumeration of zero attached devices. -/
theorem getCameraList_swallows_errors (enumRes : VmbStatus)
    (cameras : List String) (h : enumRes ≠ VmbErrorSuccess) :
    GetCameraList VmbErrorSuccess cameras = cameras ∧
    GetCameraList enumRes cameras = [] ∧
    GetCameraList enumRes cameras = GetCameraList VmbErrorSuccess [] := by
  simp [GetCameraList, h]

/-- Witness for C6 at `VmbErrorOther` and a one-camera list. -/
theorem getCameraList_swallows_errors_witness :
    GetCameraList VmbErrorSuccess ["DEV_1"] = ["DEV_1"] ∧
    GetCameraList VmbErrorOther ["DEV_1"] = [] ∧
    GetCameraList VmbErrorOther ["DEV_1"] = GetCameraList VmbErrorSuccess [] :=
  getCameraList_swallows_errors VmbErrorOther ["DEV_1"] (by decide)

/-- C7: the polling loop has no iteration cap.  First conjunct: with
`IsCommandDone` always succeeding and always reporting not-done (`hangEnv`),
`AcquireSingleImage` fails to return within any fuel bound whatsoever.
Second conjunct: whenever the loop does exit, its last poll either returned a
non-success status or reported the command done - those are the only exits. -/
theorem polling_loop_unbounded :
    (∀ (st : ApiController) (fuel : Nat),
        acquireSingleImage hangEnv st fuel = none) ∧
    (∀ (env : AcquireEnv) (fuel k n : Nat), pollLoop env fuel k = some n →
        (env.isCommandDone (n - 1)).1 ≠ VmbErrorSuccess ∨
          (env.isCommandDone (n - 1)).2 = true) := by
  constructor
  · intro st fuel
    have hnone : packetSizeCalls hangEnv fuel = none := by
      rw [packetSizeCalls, if_pos (by decide), if_pos (by decide),
        pollLoop_hangEnv_none]
    rw [acquireSingleImage, if_pos (by decide), hnone]
  · exact fun env fuel k n h => pollLoop_exit env fuel k n h

/-- Witness for C7: with fuel 5 the hanging oracle still yields no result. -/
theorem polling_loop_unbounded_witness :
    acquireSingleImage hangEnv ctrl0 5 = none :=
  polling_loop_unbounded.1 ctrl0 5

/-- C8 counterexample: the claim says the accessors return a fixed,
documented sentinel before any successful acquisition.  But the constructor
leaves the cached members with whatever indeterminate contents they start
with, and `GetWidth` just reads them back: two different initial contents
give two different pre-acquisition accessor values, so no sentinel exists. -/
theorem accessors_sentinel_counterexample :
    GetWidth (apiControllerCtor ⟨42, 7, 5⟩) = 42 ∧
    GetWidth (apiControllerCtor ⟨0, 0, 0⟩) = 0 ∧
    GetWidth (apiControllerCtor ⟨42, 7, 5⟩) ≠
      GetWidth (apiControllerCtor ⟨0, 0, 0⟩) := by
  decide

/-- C8 (amended): before any successful acquisition the accessors return the
(32-bit-converted) indeterminate initial contents of the uninitialized
members - stale values, not a documented sentinel - and a failed-open
acquisition attempt leaves those contents unchanged. -/
theorem accessors_return_indeterminate (g : ApiController) (env : AcquireEnv)
    (fuel : Nat) (hopen : env.openRes ≠ VmbErrorSuccess) :
    GetWidth (apiControllerCtor g) = intCast32 g.m_nWidth ∧
    GetHeight (apiControllerCtor g) = intCast32 g.m_nHeight ∧
    GetPixelFormat (apiControllerCtor g) = intCast32 g.m_nPixelFormat ∧
    ∀ r, acquireSingleImage env (apiControllerCtor g) fuel = some r →
      r.ctrl = apiControllerCtor g := by
  refine ⟨rfl, rfl, rfl, ?_⟩
  rintro r hr
  rw [acquireSingleImage, if_neg hopen] at hr
  injection hr with hr
  subst hr
  rfl

/-- Witness for C8 (amended) at concrete garbage ⟨42, 7, 5⟩ and a
failed-open oracle. -/
theorem accessors_return_indeterminate_witness :
    GetWidth (apiControllerCtor ⟨42, 7, 5⟩) =
      intCast32 (ApiController.mk 42 7 5).m_nWidth ∧
    GetHeight (apiControllerCtor ⟨42, 7, 5⟩) =
      intCast32 (ApiController.mk 42 7 5).m_nHeight ∧
    GetPixelFormat (apiControllerCtor ⟨42, 7, 5⟩) =
      intCast32 (ApiController.mk 42 7 5).m_nPixelFormat ∧
    ∀ r, acquireSingleImage openFailEnv (apiControllerCtor ⟨42, 7, 5⟩) 1 =
        some r →
      r.ctrl = apiControllerCtor ⟨42, 7, 5⟩ :=
  accessors_return_indeterminate ⟨42, 7, 5⟩ openFailEnv 1 (by decide)

/-- C9: `StartUp` always calls `Startup()` exactly once; if it fails, that
status is returned and neither observer construction nor registration
happens; if it succeeds, one observer is constructed, registered exactly
once, and the registration status is returned.  No call is retried. -/
theorem startUp_registers_once (env : StartUpEnv) :
    (startUp env).2.count StartUpCall.startup = 1 ∧
    (env.startupRes ≠ VmbErrorSuccess →
      startUp env = (env.startupRes, [StartUpCall.startup])) ∧
    (env.startupRes = VmbErrorSuccess →
      (startUp env).1 = env.registerRes ∧
      (startUp env).2.count StartUpCall.newCameraObserver = 1 ∧
      (startUp env).2.count StartUpCall.registerObserver = 1) := by
  by_cases hs : env.startupRes = VmbErrorSuccess <;>
    simp [startUp, hs, List.count_cons, List.count_nil]

/-- Witness for C9 at a successful `Startup()` whose registration call
returns `VmbErrorTimeout`. -/
theorem startUp_registers_once_witness :
    (startUp ⟨VmbErrorSuccess, VmbErrorTimeout⟩).1 =
      (⟨VmbErrorSuccess, VmbErrorTimeout⟩ : StartUpEnv).registerRes ∧
    (startUp ⟨VmbErrorSuccess, VmbErrorTimeout⟩).2.count
      StartUpCall.newCameraObserver = 1 ∧
    (startUp ⟨VmbErrorSuccess, VmbErrorTimeout⟩).2.count
      StartUpCall.registerObserver = 1 :=
  (startUp_registers_once ⟨VmbErrorSuccess, VmbErrorTimeout⟩).2.2 rfl

/-- C10: the packet-size adjustment step cannot influence the outcome.  Two
oracles that agree on everything except the packet-size fields
(`getPacketFeatureRes`, `runCommandRes`, `isCommandDone`) give any
terminating `AcquireSingleImage` run the same returned status and the same
cached state, and in both runs the subsequent checked sequence starts (the
Width feature is requested) - so a packet-size failure is never returned and
never prevents the width/height/pixel-format/capture sequence. -/
theorem packet_size_errors_swallowed (env₁ env₂ : AcquireEnv)
    (st : ApiController) (f₁ f₂ : Nat) (r₁ r₂ : AcquireResult)
    (hopen₁ : env₁.openRes = VmbErrorSuccess)
    (hopen₂ : env₂.openRes = VmbErrorSuccess)
    (h₁ : env₁.getWidthFeatureRes = env₂.getWidthFeatureRes)
    (h₂ : env₁.getWidthValueRes = env₂.getWidthValueRes)
    (h₃ : env₁.widthValue = env₂.widthValue)
    (h₄ : env₁.getHeightFeatureRes = env₂.getHeightFeatureRes)
    (h₅ : env₁.getHeightValueRes = env₂.getHeightValueRes)
    (h₆ : env₁.heightValue = env₂.heightValue)
    (h₇ : env₁.getPixelFormatFeatureRes = env₂.getPixelFormatFeatureRes)
    (h₈ : env₁.setRgb8Res = env₂.setRgb8Res)
    (h₉ : env₁.setMono8Res = env₂.setMono8Res)
    (h₁₀ : env₁.readbackRes = env₂.readbackRes)
    (h₁₁ : env₁.readbackValue = env₂.readbackValue)
    (h₁₂ : env₁.captureRes = env₂.captureRes)
    (ha : acquireSingleImage env₁ st f₁ = some r₁)
    (hb : acquireSingleImage env₂ st f₂ = some r₂) :
    r₁.res = r₂.res ∧ r₁.ctrl = r₂.ctrl ∧
    SdkCall.getFeature "Width" ∈ r₁.calls ∧
    SdkCall.getFeature "Width" ∈ r₂.calls := by
  obtain ⟨p₁, hp₁, hr₁⟩ := acquire_open_ok_shape env₁ st f₁ r₁ hopen₁ ha
  obtain ⟨p₂, hp₂, hr₂⟩ := acquire_open_ok_shape env₂ st f₂ r₂ hopen₂ hb
  subst hr₁
  subst hr₂
  have hc := acquireInner_congr env₁ env₂ st h₁ h₂ h₃ h₄ h₅ h₆ h₇ h₈ h₉ h₁₀
    h₁₁ h₁₂
  exact ⟨by rw [hc], by rw [hc],
    by simp [acquireInner_width_mem env₁ st],
    by simp [acquireInner_width_mem env₂ st]⟩

/-- Witness for C10: a packet-size-failing oracle and the all-success oracle
produce the same status and cached state, and both run the Width step. -/
theorem packet_size_errors_swallowed_witness :
    ((acquireSingleImage packetFailEnv ctrl0 2).getD ⟨0, ctrl0, []⟩).res =
      ((acquireSingleImage allOkEnv ctrl0 2).getD ⟨1, ctrl0, []⟩).res ∧
    ((acquireSingleImage packetFailEnv ctrl0 2).getD ⟨0, ctrl0, []⟩).ctrl =
      ((acquireSingleImage allOkEnv ctrl0 2).getD ⟨1, ctrl0, []⟩).ctrl ∧
    SdkCall.getFeature "Width" ∈
      ((acquireSingleImage packetFailEnv ctrl0 2).getD ⟨0, ctrl0, []⟩).calls ∧
    SdkCall.getFeature "Width" ∈
      ((acquireSingleImage allOkEnv ctrl0 2).getD ⟨1, ctrl0, []⟩).calls :=
  packet_size_errors_swallowed packetFailEnv allOkEnv ctrl0 2 2
    ((acquireSingleImage packetFailEnv ctrl0 2).getD ⟨0, ctrl0, []⟩)
    ((acquireSingleImage allOkEnv ctrl0 2).getD ⟨1, ctrl0, []⟩)
    (by decide) (by decide) (by decide) (by decide) (by decide) (by decide)
    (by decide) (by decide) (by decide) (by decide) (by decide) (by decide)
    (by decide) (by decide) (by decide) (by decide)

end ApiControllerModel
